import Mathlib

/-!
# Verification of `dataprofiler/profilers/json_decoder.py`

A shallow embedding of the polymorphic-deserialization decoder:
two module-level registries map class names to class objects, lookup
functions resolve a name to the registered class (raising `ValueError`
on a miss — the specification calls this condition `UnknownClassError`),
and load functions read a two-field envelope `{"class": ..., "data": ...}`
and delegate construction to the resolved class's `load_from_dict`.

Python dicts with string keys are embedded as association lists whose
assignment overwrites in place (Python 3.7+ insertion-order semantics);
raised exceptions are embedded as the `error` branch of `Except`.
-/

namespace JsonDecoder

universe u

/-- Python runtime values that flow through this module: strings (class
names) and JSON objects (data payloads, arbitrary nesting). -/
inductive PyVal where
  | str (s : String)
  | dict (entries : List (String × PyVal))

/-- Python exceptions arising in this module's dataflow: `ValueError`
(raised by the lookup functions on an unknown name; the spec's
`UnknownClassError`), `KeyError` (dict indexing on a missing key),
`TypeError` (`dict.get` with an unhashable key), and `otherError`
standing for any exception a delegated `load_from_dict` may raise. -/
inductive PyError where
  | valueError (msg : String)
  | keyError (key : String)
  | typeError (msg : String)
  | otherError (tag : String)
deriving DecidableEq

/-- A Python dict with string keys, embedded as an association list. -/
abbrev PyDict (α : Type u) : Type u := List (String × α)

/-- `d.get(k)`: `some v` when `k` is bound to `v`, `none` when absent. -/
def PyDict.get {α : Type u} (d : PyDict α) (k : String) : Option α :=
  match d with
  | [] => Option.none
  | (k2, v) :: rest => if k2 = k then Option.some v else PyDict.get rest k

/-- `d[k] = v`: overwrite in place when `k` is bound, append otherwise
(Python 3.7+ dict assignment preserves insertion order). -/
def PyDict.set {α : Type u} (d : PyDict α) (k : String) (v : α) : PyDict α :=
  match d with
  | [] => [(k, v)]
  | (k2, v2) :: rest =>
    if k2 = k then (k, v) :: rest else (k2, v2) :: PyDict.set rest k v

/-- A registrable class, reduced to the one capability the decoder uses:
its `load_from_dict` static constructor, which may raise. `ι` is the
type of reconstructed instances of this family. -/
structure PyClass (ι : Type u) where
  load_from_dict : PyVal → Except PyError ι

/-- `get_column_profiler_class(class_name)`: `_profiles.get(class_name)`;
raise `ValueError(f"Invalid profiler class {class_name} failed to load.")`
when the result is `None`, else return the class. The registry `_profiles`
is a module-level global, passed here explicitly. -/
def get_column_profiler_class {ι : Type u} (profiles : PyDict (PyClass ι))
    (class_name : String) : Except PyError (PyClass ι) :=
  match PyDict.get profiles class_name with
  | Option.none =>
    Except.error (PyError.valueError
      ("Invalid profiler class " ++ class_name ++ " failed to load."))
  | Option.some profile_class => Except.ok profile_class

/-- `get_compiler_class(class_name)`: `_compilers.get(class_name)`;
raise `ValueError(f"Invalid compiler class {class_name} failed to load.")`
when the result is `None`, else return the class. -/
def get_compiler_class {κ : Type u} (compilers : PyDict (PyClass κ))
    (class_name : String) : Except PyError (PyClass κ) :=
  match PyDict.get compilers class_name with
  | Option.none =>
    Except.error (PyError.valueError
      ("Invalid compiler class " ++ class_name ++ " failed to load."))
  | Option.some compiler_class => Except.ok compiler_class

/-- `get_column_profiler_class` applied to the runtime value found at
`serialized_json["class"]`, which the source does not check to be a
string: a string goes through the registry lookup; a dict is unhashable,
so `_profiles.get` raises `TypeError` before any message is built. -/
def get_column_profiler_class_val {ι : Type u} (profiles : PyDict (PyClass ι))
    (class_name : PyVal) : Except PyError (PyClass ι) :=
  match class_name with
  | PyVal.str s => get_column_profiler_class profiles s
  | PyVal.dict _ => Except.error (PyError.typeError "unhashable type: dict")

/-- `get_compiler_class` applied to the runtime value found at
`serialized_json["class"]`; see `get_column_profiler_class_val`. -/
def get_compiler_class_val {κ : Type u} (compilers : PyDict (PyClass κ))
    (class_name : PyVal) : Except PyError (PyClass κ) :=
  match class_name with
  | PyVal.str s => get_compiler_class compilers s
  | PyVal.dict _ => Except.error (PyError.typeError "unhashable type: dict")

/-- `load_column_profile(serialized_json)`: evaluate
`serialized_json["class"]` (raising `KeyError` when absent), resolve the
class via `get_column_profiler_class`, evaluate `serialized_json["data"]`
(raising `KeyError` when absent), and return
`column_profiler_cls.load_from_dict(serialized_json["data"])` unmodified.
Python evaluates the `["data"]` index before entering `load_from_dict`. -/
def load_column_profile {ι : Type u} (profiles : PyDict (PyClass ι))
    (serialized_json : PyDict PyVal) : Except PyError ι :=
  match PyDict.get serialized_json "class" with
  | Option.none => Except.error (PyError.keyError "class")
  | Option.some class_val =>
    match get_column_profiler_class_val profiles class_val with
    | Except.error e => Except.error e
    | Except.ok column_profiler_cls =>
      match PyDict.get serialized_json "data" with
      | Option.none => Except.error (PyError.keyError "data")
      | Option.some data_val => column_profiler_cls.load_from_dict data_val

/-- `load_compiler(serialized_json)`: same shape as `load_column_profile`,
over the compiler registry and `get_compiler_class`. -/
def load_compiler {κ : Type u} (compilers : PyDict (PyClass κ))
    (serialized_json : PyDict PyVal) : Except PyError κ :=
  match PyDict.get serialized_json "class" with
  | Option.none => Except.error (PyError.keyError "class")
  | Option.some class_val =>
    match get_compiler_class_val compilers class_val with
    | Except.error e => Except.error e
    | Except.ok compiler_cls =>
      match PyDict.get serialized_json "data" with
      | Option.none => Except.error (PyError.keyError "data")
      | Option.some data_val => compiler_cls.load_from_dict data_val

/-- The module-level mutable state of `json_decoder.py`: the two
registries `_profiles` and `_compilers`. -/
structure DecoderState (ι κ : Type u) where
  profiles : PyDict (PyClass ι)
  compilers : PyDict (PyClass κ)

/-- State-passing form of `get_column_profiler_class`: the body only
reads `_profiles` (via `dict.get`) and contains no assignment to either
global, so the state component is returned unchanged. -/
def get_column_profiler_class_st {ι κ : Type u} (class_name : String)
    (st : DecoderState ι κ) : Except PyError (PyClass ι) × DecoderState ι κ :=
  (get_column_profiler_class st.profiles class_name, st)

/-- State-passing form of `get_compiler_class`: reads `_compilers` only,
writes neither registry. -/
def get_compiler_class_st {ι κ : Type u} (class_name : String)
    (st : DecoderState ι κ) : Except PyError (PyClass κ) × DecoderState ι κ :=
  (get_compiler_class st.compilers class_name, st)

/-- Modelled from the spec: the registration operation populating a
registry is performed by the package `__init__` (not part of this file);
per the spec, `register(name, type)` "inserts or overwrites the mapping
for `name`", i.e. Python dict assignment `registry[name] = type`. -/
def register {α : Type u} (r : PyDict α) (name : String) (ty : α) : PyDict α :=
  PyDict.set r name ty

/-- Replace the loader of every registered class by `g` applied to its
name, keeping the set of registered names intact: used to express that a
given call never invokes any registered `load_from_dict`, because its
outcome is invariant under arbitrary replacement of all loaders. -/
def reassignLoaders {ι : Type u} (g : String → PyVal → Except PyError ι)
    (r : PyDict (PyClass ι)) : PyDict (PyClass ι) :=
  r.map (fun p => (p.1, PyClass.mk (g p.1)))

/-! ## Registry lemmas -/

theorem pyget_set_self {α : Type u} (d : PyDict α) (k : String) (v : α) :
    PyDict.get (PyDict.set d k v) k = Option.some v := by
  induction d with
  | nil => simp [PyDict.set, PyDict.get]
  | cons hd tl ih =>
    obtain ⟨k2, v2⟩ := hd
    by_cases h : k2 = k
    · simp [PyDict.set, PyDict.get, h]
    · simp [PyDict.set, PyDict.get, h, ih]

theorem pyget_set_ne {α : Type u} (d : PyDict α) (k q : String) (v : α)
    (h : q ≠ k) : PyDict.get (PyDict.set d k v) q = PyDict.get d q := by
  induction d with
  | nil => simp [PyDict.set, PyDict.get, Ne.symm h]
  | cons hd tl ih =>
    obtain ⟨k2, v2⟩ := hd
    by_cases h2 : k2 = k
    · subst h2
      simp [PyDict.set, PyDict.get, Ne.symm h]
    · simp [PyDict.set, PyDict.get, h2, ih]

theorem pyset_set_self {α : Type u} (d : PyDict α) (k : String) (v : α) :
    PyDict.set (PyDict.set d k v) k v = PyDict.set d k v := by
  induction d with
  | nil => simp [PyDict.set]
  | cons hd tl ih =>
    obtain ⟨k2, v2⟩ := hd
    by_cases h : k2 = k
    · simp [PyDict.set, h]
    · simp [PyDict.set, h, ih]

theorem reassignLoaders_cons {ι : Type u} (g : String → PyVal → Except PyError ι)
    (k : String) (c : PyClass ι) (tl : PyDict (PyClass ι)) :
    reassignLoaders g ((k, c) :: tl) = (k, PyClass.mk (g k)) :: reassignLoaders g tl := rfl

theorem pyget_reassignLoaders {ι : Type u} (g : String → PyVal → Except PyError ι)
    (r : PyDict (PyClass ι)) (n : String) :
    PyDict.get (reassignLoaders g r) n =
      Option.map (fun _ => PyClass.mk (g n)) (PyDict.get r n) := by
  induction r with
  | nil => simp [reassignLoaders, PyDict.get]
  | cons hd tl ih =>
    obtain ⟨k2, c⟩ := hd
    by_cases h : k2 = n
    · subst h
      simp [reassignLoaders, PyDict.get]
    · simp [reassignLoaders, PyDict.get, h] at ih ⊢
      exact ih

/-! ## Concrete fixtures used by the witnesses -/

def fooClass : PyClass Nat := PyClass.mk (fun _ => Except.ok 1)

def errProfClass : PyClass Nat :=
  PyClass.mk (fun _ => Except.error (PyError.otherError "bad profiler data"))

def compClass : PyClass Nat := PyClass.mk (fun _ => Except.ok 2)

def errCompClass : PyClass Nat :=
  PyClass.mk (fun _ => Except.error (PyError.otherError "bad compiler data"))

def profRegistry : PyDict (PyClass Nat) := [("Foo", fooClass), ("Err", errProfClass)]

def compRegistry : PyDict (PyClass Nat) := [("Foo", compClass), ("Err", errCompClass)]

def envFoo : PyDict PyVal :=
  [("class", PyVal.str "Foo"), ("data", PyVal.dict []), ("extra", PyVal.str "x")]

def envFoo2 : PyDict PyVal :=
  [("other", PyVal.str "y"), ("class", PyVal.str "Foo"), ("data", PyVal.dict [])]

def envErr : PyDict PyVal := [("class", PyVal.str "Err"), ("data", PyVal.dict [])]

def envMissing : PyDict PyVal := [("class", PyVal.str "Missing"), ("data", PyVal.dict [])]

def envNoClass : PyDict PyVal := [("data", PyVal.dict [])]

def envNoData : PyDict PyVal := [("class", PyVal.str "Foo")]

/-! ## Claim theorems -/

/-- Claim C1: for every envelope dict containing keys "class" and "data"
where the value of "class" is a name registered in the profiler registry,
`load_column_profile` returns exactly the resolved class's
`load_from_dict` applied to the "data" payload, unmodified; the same
holds for `load_compiler` over the compiler registry. -/
theorem spec_C1 {ι κ : Type u} (profiles : PyDict (PyClass ι))
    (compilers : PyDict (PyClass κ)) (env : PyDict PyVal) (n : String)
    (d : PyVal) (cp : PyClass ι) (cc : PyClass κ)
    (hc : PyDict.get env "class" = Option.some (PyVal.str n))
    (hd : PyDict.get env "data" = Option.some d)
    (hp : PyDict.get profiles n = Option.some cp)
    (hk : PyDict.get compilers n = Option.some cc) :
    load_column_profile profiles env = cp.load_from_dict d ∧
    load_compiler compilers env = cc.load_from_dict d := by
  constructor
  · simp [load_column_profile, hc, hd, get_column_profiler_class_val,
      get_column_profiler_class, hp]
  · simp [load_compiler, hc, hd, get_compiler_class_val, get_compiler_class, hk]

/-- Witness for C1 at a concrete registry and envelope. -/
theorem spec_C1_witness :
    load_column_profile profRegistry envFoo = fooClass.load_from_dict (PyVal.dict []) ∧
    load_compiler compRegistry envFoo = compClass.load_from_dict (PyVal.dict []) :=
  spec_C1 profRegistry compRegistry envFoo "Foo" (PyVal.dict []) fooClass compClass
    rfl rfl rfl rfl

/-- Claim C2: for every class name with no entry in the corresponding
registry the lookup function fails with the unknown-class error (realised
as `ValueError` in the code), whose message contains the offending name
and identifies the family being resolved ("profiler" vs "compiler"). -/
theorem spec_C2 {ι κ : Type u} (profiles : PyDict (PyClass ι))
    (compilers : PyDict (PyClass κ)) (n : String)
    (hp : PyDict.get profiles n = Option.none)
    (hk : PyDict.get compilers n = Option.none) :
    (∃ msg, get_column_profiler_class profiles n =
        Except.error (PyError.valueError msg) ∧
      (∃ a b, msg = a ++ n ++ b) ∧ (∃ a b, msg = a ++ "profiler" ++ b)) ∧
    (∃ msg, get_compiler_class compilers n =
        Except.error (PyError.valueError msg) ∧
      (∃ a b, msg = a ++ n ++ b) ∧ (∃ a b, msg = a ++ "compiler" ++ b)) := by
  constructor
  · refine ⟨"Invalid profiler class " ++ n ++ " failed to load.", ?_,
      ⟨"Invalid profiler class ", " failed to load.", rfl⟩,
      ⟨"Invalid ", " class " ++ n ++ " failed to load.", ?_⟩⟩
    · simp [get_column_profiler_class, hp]
    · simp [← String.append_assoc]
  · refine ⟨"Invalid compiler class " ++ n ++ " failed to load.", ?_,
      ⟨"Invalid compiler class ", " failed to load.", rfl⟩,
      ⟨"Invalid ", " class " ++ n ++ " failed to load.", ?_⟩⟩
    · simp [get_compiler_class, hk]
    · simp [← String.append_assoc]

/-- Witness for C2 at the unregistered name "Bar". -/
theorem spec_C2_witness :
    (∃ msg, get_column_profiler_class profRegistry "Bar" =
        Except.error (PyError.valueError msg) ∧
      (∃ a b, msg = a ++ "Bar" ++ b) ∧ (∃ a b, msg = a ++ "profiler" ++ b)) ∧
    (∃ msg, get_compiler_class compRegistry "Bar" =
        Except.error (PyError.valueError msg) ∧
      (∃ a b, msg = a ++ "Bar" ++ b) ∧ (∃ a b, msg = a ++ "compiler" ++ b)) :=
  spec_C2 profRegistry compRegistry "Bar" rfl rfl

/-- Claim C3: for every registered name the lookup function returns
exactly the type stored under that name, and repeated calls with the same
registry contents return the same result every time with no side effects
(the state-passing forms return the identical value and leave the state
untouched on every call). -/
theorem spec_C3 {ι κ : Type u} (profiles : PyDict (PyClass ι))
    (compilers : PyDict (PyClass κ)) (n : String) (cp : PyClass ι) (cc : PyClass κ)
    (hp : PyDict.get profiles n = Option.some cp)
    (hk : PyDict.get compilers n = Option.some cc) :
    get_column_profiler_class profiles n = Except.ok cp ∧
    get_compiler_class compilers n = Except.ok cc ∧
    (∀ st : DecoderState ι κ, st.profiles = profiles →
      get_column_profiler_class_st n st = (Except.ok cp, st)) ∧
    (∀ st : DecoderState ι κ, st.compilers = compilers →
      get_compiler_class_st n st = (Except.ok cc, st)) := by
  refine ⟨?_, ?_, ?_, ?_⟩
  · simp [get_column_profiler_class, hp]
  · simp [get_compiler_class, hk]
  · intro st h
    simp [get_column_profiler_class_st, h, get_column_profiler_class, hp]
  · intro st h
    simp [get_compiler_class_st, h, get_compiler_class, hk]

/-- Witness for C3 at the registered name "Foo". -/
theorem spec_C3_witness :
    get_column_profiler_class profRegistry "Foo" = Except.ok fooClass ∧
    get_compiler_class compRegistry "Foo" = Except.ok compClass ∧
    (∀ st : DecoderState Nat Nat, st.profiles = profRegistry →
      get_column_profiler_class_st "Foo" st = (Except.ok fooClass, st)) ∧
    (∀ st : DecoderState Nat Nat, st.compilers = compRegistry →
      get_compiler_class_st "Foo" st = (Except.ok compClass, st)) :=
  spec_C3 profRegistry compRegistry "Foo" fooClass compClass rfl rfl

/-- Claim C4: when the resolved type's `load_from_dict` raises on the
"data" payload, `load_column_profile` (resp. `load_compiler`) propagates
exactly that error unchanged: no catch, no wrap, no retry, no fallback. -/
theorem spec_C4 {ι κ : Type u} (profiles : PyDict (PyClass ι))
    (compilers : PyDict (PyClass κ)) (env : PyDict PyVal) (n : String)
    (d : PyVal) (cp : PyClass ι) (cc : PyClass κ) (e1 e2 : PyError)
    (hc : PyDict.get env "class" = Option.some (PyVal.str n))
    (hd : PyDict.get env "data" = Option.some d)
    (hp : PyDict.get profiles n = Option.some cp)
    (hk : PyDict.get compilers n = Option.some cc)
    (he1 : cp.load_from_dict d = Except.error e1)
    (he2 : cc.load_from_dict d = Except.error e2) :
    load_column_profile profiles env = Except.error e1 ∧
    load_compiler compilers env = Except.error e2 := by
  constructor
  · simp [load_column_profile, hc, hd, get_column_profiler_class_val,
      get_column_profiler_class, hp, he1]
  · simp [load_compiler, hc, hd, get_compiler_class_val, get_compiler_class, hk, he2]

/-- Witness for C4 at classes whose loaders reject the payload. -/
theorem spec_C4_witness :
    load_column_profile profRegistry envErr =
      Except.error (PyError.otherError "bad profiler data") ∧
    load_compiler compRegistry envErr =
      Except.error (PyError.otherError "bad compiler data") :=
  spec_C4 profRegistry compRegistry envErr "Err" (PyVal.dict []) errProfClass
    errCompClass (PyError.otherError "bad profiler data")
    (PyError.otherError "bad compiler data") rfl rfl rfl rfl rfl rfl

/-- Claim C5: when the envelope's "class" value is not a registered name,
`load_column_profile` (resp. `load_compiler`) raises the unknown-class
`ValueError`, and no registered type's `load_from_dict` is ever invoked:
the outcome is invariant under arbitrary replacement of every registered
loader. -/
theorem spec_C5 {ι κ : Type u} (profiles : PyDict (PyClass ι))
    (compilers : PyDict (PyClass κ)) (env : PyDict PyVal) (n : String)
    (hc : PyDict.get env "class" = Option.some (PyVal.str n))
    (hp : PyDict.get profiles n = Option.none)
    (hk : PyDict.get compilers n = Option.none) :
    load_column_profile profiles env = Except.error
      (PyError.valueError ("Invalid profiler class " ++ n ++ " failed to load.")) ∧
    load_compiler compilers env = Except.error
      (PyError.valueError ("Invalid compiler class " ++ n ++ " failed to load.")) ∧
    (∀ g : String → PyVal → Except PyError ι,
      load_column_profile (reassignLoaders g profiles) env =
        load_column_profile profiles env) ∧
    (∀ g : String → PyVal → Except PyError κ,
      load_compiler (reassignLoaders g compilers) env =
        load_compiler compilers env) := by
  refine ⟨?_, ?_, ?_, ?_⟩
  · simp [load_column_profile, hc, get_column_profiler_class_val,
      get_column_profiler_class, hp]
  · simp [load_compiler, hc, get_compiler_class_val, get_compiler_class, hk]
  · intro g
    simp [load_column_profile, hc, get_column_profiler_class_val,
      get_column_profiler_class, hp, pyget_reassignLoaders]
  · intro g
    simp [load_compiler, hc, get_compiler_class_val, get_compiler_class, hk,
      pyget_reassignLoaders]

/-- Witness for C5 at the unregistered name "Missing". -/
theorem spec_C5_witness :
    load_column_profile profRegistry envMissing = Except.error
      (PyError.valueError
        ("Invalid profiler class " ++ "Missing" ++ " failed to load.")) ∧
    load_compiler compRegistry envMissing = Except.error
      (PyError.valueError
        ("Invalid compiler class " ++ "Missing" ++ " failed to load.")) ∧
    (∀ g : String → PyVal → Except PyError Nat,
      load_column_profile (reassignLoaders g profRegistry) envMissing =
        load_column_profile profRegistry envMissing) ∧
    (∀ g : String → PyVal → Except PyError Nat,
      load_compiler (reassignLoaders g compRegistry) envMissing =
        load_compiler compRegistry envMissing) :=
  spec_C5 profRegistry compRegistry envMissing "Missing" rfl rfl rfl

/-- Claim C6: for every class name, registered or not, a lookup call
leaves both registries unchanged: the module state after the call equals
the state before it, failed lookups included. -/
theorem spec_C6 {ι κ : Type u} (n : String) (st : DecoderState ι κ) :
    (get_column_profiler_class_st n st).2 = st ∧
    (get_compiler_class_st n st).2 = st :=
  ⟨rfl, rfl⟩

/-- Claim C7: `register(name, type)` inserts or overwrites the mapping
for `name`, changes no other binding, and is idempotent: registering the
same name to the same type twice equals registering it once. -/
theorem spec_C7 {α : Type u} (r : PyDict α) (n : String) (t : α) :
    PyDict.get (register r n t) n = Option.some t ∧
    (∀ k, k ≠ n → PyDict.get (register r n t) k = PyDict.get r k) ∧
    register (register r n t) n t = register r n t :=
  ⟨pyget_set_self r n t, fun k hk => pyget_set_ne r n k t hk, pyset_set_self r n t⟩

/-- Witness for C7 at a concrete registry, name and class. -/
theorem spec_C7_witness :
    PyDict.get (register profRegistry "New" fooClass) "New" = Option.some fooClass ∧
    PyDict.get (register profRegistry "New" fooClass) "Foo" =
      PyDict.get profRegistry "Foo" ∧
    register (register profRegistry "New" fooClass) "New" fooClass =
      register profRegistry "New" fooClass := by
  obtain ⟨h1, h2, h3⟩ := spec_C7 profRegistry "New" fooClass
  exact ⟨h1, h2 "Foo" (by decide), h3⟩

/-- Claim C8: a dict lacking the key "class" makes `load_column_profile`
and `load_compiler` raise `KeyError` from the dict indexing itself, not
the unknown-class `ValueError`; and when "class" is registered but "data"
is absent, the call raises `KeyError` before invoking `load_from_dict`
(the resolved class and its loader are arbitrary and never reached). -/
theorem spec_C8 {ι κ : Type u} (profiles : PyDict (PyClass ι))
    (compilers : PyDict (PyClass κ)) (env : PyDict PyVal) :
    (PyDict.get env "class" = Option.none →
      load_column_profile profiles env = Except.error (PyError.keyError "class") ∧
      load_compiler compilers env = Except.error (PyError.keyError "class")) ∧
    (∀ (n : String) (cp : PyClass ι) (cc : PyClass κ),
      PyDict.get env "class" = Option.some (PyVal.str n) →
      PyDict.get profiles n = Option.some cp →
      PyDict.get compilers n = Option.some cc →
      PyDict.get env "data" = Option.none →
      load_column_profile profiles env = Except.error (PyError.keyError "data") ∧
      load_compiler compilers env = Except.error (PyError.keyError "data")) := by
  constructor
  · intro h
    constructor
    · simp [load_column_profile, h]
    · simp [load_compiler, h]
  · intro n cp cc hc hp hk hd
    constructor
    · simp [load_column_profile, hc, get_column_profiler_class_val,
        get_column_profiler_class, hp, hd]
    · simp [load_compiler, hc, get_compiler_class_val, get_compiler_class, hk, hd]

/-- Witness for C8 at an envelope with no "class" key and one with a
registered "class" but no "data" key. -/
theorem spec_C8_witness :
    (load_column_profile profRegistry envNoClass =
        Except.error (PyError.keyError "class") ∧
      load_compiler compRegistry envNoClass =
        Except.error (PyError.keyError "class")) ∧
    (load_column_profile profRegistry envNoData =
        Except.error (PyError.keyError "data") ∧
      load_compiler compRegistry envNoData =
        Except.error (PyError.keyError "data")) :=
  ⟨(spec_C8 profRegistry compRegistry envNoClass).1 rfl,
    (spec_C8 profRegistry compRegistry envNoData).2 "Foo" fooClass compClass
      rfl rfl rfl rfl⟩

/-- Claim C9: the two registries are independent: the result of a
profiler lookup depends only on the `_profiles` component of the module
state, and the result of a compiler lookup only on `_compilers`; two
states agreeing on one registry give identical outcomes for that family's
lookup however the other registry differs. -/
theorem spec_C9 {ι κ : Type u} (n : String) (st1 st2 : DecoderState ι κ) :
    (st1.profiles = st2.profiles →
      (get_column_profiler_class_st n st1).1 = (get_column_profiler_class_st n st2).1) ∧
    (st1.compilers = st2.compilers →
      (get_compiler_class_st n st1).1 = (get_compiler_class_st n st2).1) := by
  constructor
  · intro h
    simp [get_column_profiler_class_st, h]
  · intro h
    simp [get_compiler_class_st, h]

/-- Witness for C9 at states agreeing on one registry and differing
arbitrarily on the other. -/
theorem spec_C9_witness :
    (get_column_profiler_class_st "Foo" (DecoderState.mk profRegistry compRegistry)).1 =
      (get_column_profiler_class_st "Foo"
        (DecoderState.mk profRegistry ([] : PyDict (PyClass Nat)))).1 ∧
    (get_compiler_class_st "Foo" (DecoderState.mk profRegistry compRegistry)).1 =
      (get_compiler_class_st "Foo"
        (DecoderState.mk ([] : PyDict (PyClass Nat)) compRegistry)).1 :=
  ⟨(spec_C9 "Foo" (DecoderState.mk profRegistry compRegistry)
      (DecoderState.mk profRegistry [])).1 rfl,
    (spec_C9 "Foo" (DecoderState.mk profRegistry compRegistry)
      (DecoderState.mk [] compRegistry)).2 rfl⟩

/-- Claim C10: the load functions read only the keys "class" and "data":
two envelopes agreeing on the values of those keys, however the other
keys differ, give identical outcomes (same instance or same error). -/
theorem spec_C10 {ι κ : Type u} (profiles : PyDict (PyClass ι))
    (compilers : PyDict (PyClass κ)) (e1 e2 : PyDict PyVal)
    (hc : PyDict.get e1 "class" = PyDict.get e2 "class")
    (hd : PyDict.get e1 "data" = PyDict.get e2 "data") :
    load_column_profile profiles e1 = load_column_profile profiles e2 ∧
    load_compiler compilers e1 = load_compiler compilers e2 := by
  constructor
  · unfold load_column_profile
    rw [hc, hd]
  · unfold load_compiler
    rw [hc, hd]

/-- Witness for C10 at two envelopes with the same "class" and "data" but
different extra keys and insertion order. -/
theorem spec_C10_witness :
    load_column_profile profRegistry envFoo = load_column_profile profRegistry envFoo2 ∧
    load_compiler compRegistry envFoo = load_compiler compRegistry envFoo2 :=
  spec_C10 profRegistry compRegistry envFoo envFoo2 rfl rfl

end JsonDecoder
